import Mathlib

/-!
Verification of the masterchain first-block tracker
(`src/ton-liteserver-client/src/tracker/masterchain_first_block_tracker.rs`).

The actor `MasterchainFirstBlockTrackerActor::run` is a tokio task built
around a `select!` loop with two guarded arms (a chain-head wait, enabled
while `last_block_id.is_none()`, and a discovery round, enabled while
`last_block_id.is_some()`) raced against a cancellation token, publishing
each successful discovery into a `tokio::sync::watch` channel.

The embedding below is a small-step transition system.  The two remote
operations (`MasterchainLastBlockTracker::wait_masterchain_info` and
`find_first_block_header`, both outside this file's source) are treated as
oracles: their outcomes arrive as environment-chosen events carrying an
`Except` result.  tokio semantics relevant to the source are reflected as
follows:

* `select!` without `biased` picks pseudo-randomly among ready branches, so
  when the cancellation token is triggered while an arm's future is already
  in flight, either the cancellation branch or the completed arm may win;
  this is modelled by keeping both events enabled.  A *freshly entered*
  `select!` whose cancellation future is already triggered always takes the
  cancellation branch, because the competing arm future is newly created and
  its first poll suspends on I/O while `cancelled()` is already ready; this
  is modelled by recording, in the `selectP` phase, whether cancellation was
  pending when the select was entered.
* `tokio::time::sleep(30s)` in the success handler runs *inside* the arm
  body, after the `select!` has resolved, so nothing can interrupt it; the
  `sleepP` phase therefore only steps via `wakeFromSleep`.
* `watch::Sender::send` fails exactly when no receiver is alive, and the
  source unwraps the result, so a send with zero live receivers panics the
  task (phase `panicked`).
* dropping the `MasterchainFirstBlockTracker` handle releases its
  `DropGuard`, which triggers the cancellation token, and drops the handle's
  own `watch::Receiver`.
-/

/-- Modelled from the spec: `TonNodeBlockIdExt` (crate `tl` module, not part
of the analysed source) is an opaque block identifier — workchain/shard
identifier plus a monotonically increasing seqno plus integrity hashes.
The actor only reads the `seqno` field. -/
structure TonNodeBlockIdExt where
  workchain : Int
  shard : Nat
  seqno : Nat
  root_hash : Nat
  file_hash : Nat
  deriving DecidableEq, Repr

/-- Modelled from the spec: `LiteServerBlockHeader` (crate `tl` module, not
part of the analysed source) is the immutable header for a `BlockId`; the
actor only reads `id.seqno`, remaining metadata is kept opaque. -/
structure LiteServerBlockHeader where
  id : TonNodeBlockIdExt
  header_proof : Nat
  deriving DecidableEq, Repr

/-- Modelled from the spec: `LiteServerMasterchainInfo` (crate `tl` module,
not part of the analysed source); the actor only reads its `last` field,
the current chain-head block id. -/
structure LiteServerMasterchainInfo where
  last : TonNodeBlockIdExt
  deriving DecidableEq, Repr

/-- Modelled from the spec: `crate::client::Error`, an opaque error value;
the actor only logs it, never inspects it. -/
structure LSError where
  code : Nat
  deriving DecidableEq, Repr

/-- Control point of the actor task.

* `selectP seen`: blocked at the top-of-loop `select!`; `seen` records
  whether the cancellation token was already triggered when this `select!`
  was entered (in which case the freshly created arm future cannot win the
  race against the already-ready `cancelled()` future).
* `sleepP n`: inside the success handler's `tokio::time::sleep` of `n`
  seconds (the source uses 30).
* `stopped`: the cancellation branch ran `break` and the task returned.
* `panicked`: the `send(..).unwrap()` panicked because every receiver of
  the watch channel had been dropped. -/
inductive ActorPhase where
  | selectP (seen : Bool)
  | sleepP (secs : Nat)
  | stopped
  | panicked
  deriving DecidableEq, Repr

/-- The whole system state: the actor task's local variables
(`last_block_id`, `current_seqno` from the source), its control point, the
watch channel (current value plus a version counter that subscribers
observe through `changed()`), the cancellation token, and the receiver
accounting that decides whether `send` succeeds. -/
structure TrackerWorld where
  phase : ActorPhase
  last_block_id : Option TonNodeBlockIdExt
  current_seqno : Option Nat
  chan_value : Option LiteServerBlockHeader
  chan_version : Nat
  cancel_triggered : Bool
  handle_dropped : Bool
  handle_receiver_alive : Bool
  subscriber_receivers : Nat
  deriving DecidableEq, Repr

instance {ε α : Type} [DecidableEq ε] [DecidableEq α] : DecidableEq (Except ε α)
  | .ok x, .ok y =>
    if h : x = y then isTrue (congrArg Except.ok h)
    else isFalse (fun hc => h (by cases hc; rfl))
  | .error x, .error y =>
    if h : x = y then isTrue (congrArg Except.error h)
    else isFalse (fun hc => h (by cases hc; rfl))
  | .ok _, .error _ => isFalse (fun hc => Except.noConfusion hc)
  | .error _, .ok _ => isFalse (fun hc => Except.noConfusion hc)

/-- Events: oracle results for the two `select!` arms, observation of the
cancellation branch, completion of the cooldown sleep, and handle-side
events (dropping the `MasterchainFirstBlockTracker` handle, cloning or
dropping a subscriber receiver). -/
inductive TrackerEvent where
  | triggerDrop
  | subscribe
  | dropSubscriber
  | observeCancel
  | chainHeadResult (r : Except LSError LiteServerMasterchainInfo)
  | discoveryResult (r : Except LSError LiteServerBlockHeader)
  | wakeFromSleep
  deriving DecidableEq, Repr

/-- Number of live receivers of the watch channel: the handle's own
receiver (alive until the handle is dropped) plus subscriber clones.
`watch::Sender::send` succeeds iff this is nonzero. -/
def receiverCount (w : TrackerWorld) : Nat :=
  w.subscriber_receivers + (if w.handle_receiver_alive then 1 else 0)

/-- One transition of the system, translated from
`MasterchainFirstBlockTrackerActor::run` (lines 27–75 of the source):

* `triggerDrop`: dropping the handle releases the `DropGuard` (triggers the
  token) and drops the handle's receiver; a handle can be dropped once.
* `subscribe` / `dropSubscriber`: cloning a receiver (the handle's
  `receiver()` method or cloning an existing subscription) / dropping one.
* `observeCancel`: the `cancelled()` branch of the `select!` wins; only
  possible while blocked at the `select!` with the token triggered; runs
  `break`, ending the task.
* `chainHeadResult r`: the `wait_masterchain_info` arm completes; guarded by
  `last_block_id.is_none()`; `Ok` stores the head, `Err` is only logged;
  either way the loop re-enters the `select!` (which now sees the current
  token state).
* `discoveryResult r`: the `find_first_block_header` arm completes; guarded
  by `last_block_id.is_some()`; `Ok` runs
  `current_seqno.replace(block.id.seqno); sender.send(Some(block)).unwrap()`
  — a panic if no receiver is alive, otherwise a publish — and then sleeps
  30 seconds inside the handler; `Err` is only logged.
* `wakeFromSleep`: the cooldown ends and the loop re-enters the `select!`.

Arm-completion events require `selectP false`: an arm future can only
complete and win if the select was entered before cancellation was
triggered (a fresh select with a triggered token resolves its already-ready
`cancelled()` branch before any newly created arm future can become
ready). -/
def step (w : TrackerWorld) : TrackerEvent → Option TrackerWorld
  | .triggerDrop =>
    if w.handle_dropped then none
    else some { w with handle_dropped := true, cancel_triggered := true,
                       handle_receiver_alive := false }
  | .subscribe =>
    if receiverCount w = 0 then none
    else some { w with subscriber_receivers := w.subscriber_receivers + 1 }
  | .dropSubscriber =>
    match w.subscriber_receivers with
    | 0 => none
    | n + 1 => some { w with subscriber_receivers := n }
  | .observeCancel =>
    match w.phase, w.cancel_triggered with
    | .selectP _, true => some { w with phase := .stopped }
    | _, _ => none
  | .chainHeadResult r =>
    match w.phase, w.last_block_id with
    | .selectP false, none =>
      match r with
      | .ok info => some { w with last_block_id := some info.last,
                                  phase := .selectP w.cancel_triggered }
      | .error _ => some { w with phase := .selectP w.cancel_triggered }
    | _, _ => none
  | .discoveryResult r =>
    match w.phase, w.last_block_id with
    | .selectP false, some _ =>
      match r with
      | .ok block =>
        if receiverCount w = 0 then
          some { w with current_seqno := some block.id.seqno,
                        phase := .panicked }
        else
          some { w with current_seqno := some block.id.seqno,
                        chan_value := some block,
                        chan_version := w.chan_version + 1,
                        phase := .sleepP 30 }
      | .error _ => some { w with phase := .selectP w.cancel_triggered }
    | _, _ => none
  | .wakeFromSleep =>
    match w.phase with
    | .sleepP _ => some { w with phase := .selectP w.cancel_triggered }
    | _ => none

/-- Run a list of events from a state; `none` if any event is not enabled. -/
def stepTrace (w : TrackerWorld) : List TrackerEvent → Option TrackerWorld
  | [] => some w
  | e :: es =>
    match step w e with
    | some w' => stepTrace w' es
    | none => none

/-- The state right after `MasterchainFirstBlockTracker::new` (lines 84–91):
fresh cancellation token, `watch::channel(None)`, the handle holding the
receiver, and the spawned actor entering its loop with
`last_block_id = None`, `current_seqno = None`. -/
def initialWorld : TrackerWorld where
  phase := .selectP false
  last_block_id := none
  current_seqno := none
  chan_value := none
  chan_version := 0
  cancel_triggered := false
  handle_dropped := false
  handle_receiver_alive := true
  subscriber_receivers := 0

/-- The argument tuple the actor passes to `find_first_block_header`
(lines 51–56): the stored chain head as anchor, `current_seqno` as the low
hint and `current_seqno.map(|q| q + 32)` as the high hint; `none` while no
chain head is known (the arm is then disabled and the call never made). -/
def discoveryArgs (w : TrackerWorld) : Option (TonNodeBlockIdExt × Option Nat × Option Nat) :=
  w.last_block_id.map (fun b => (b, w.current_seqno, w.current_seqno.map (fun q => q + 32)))

/-- The guard `last_block_id.is_none()` of the chain-head arm (line 40). -/
def chainHeadGuard (w : TrackerWorld) : Bool := w.last_block_id.isNone

/-- The guard `last_block_id.is_some()` of the discovery arm (line 57). -/
def discoveryGuard (w : TrackerWorld) : Bool := w.last_block_id.isSome

/-- Sample block id used in concrete witnesses. -/
def bidG (s : Nat) : TonNodeBlockIdExt :=
  { workchain := -1, shard := 0, seqno := s, root_hash := 0, file_hash := 0 }

/-- Sample block header used in concrete witnesses. -/
def hdrG (s : Nat) : LiteServerBlockHeader :=
  { id := bidG s, header_proof := 0 }

/-- Sample masterchain info used in concrete witnesses. -/
def infoG (s : Nat) : LiteServerMasterchainInfo :=
  { last := bidG s }

/-- Inversion principle for `step`: every enabled transition is one of the
ten cases below, each recording the event shape, the guards that held in
the pre-state and the exact post-state. -/
theorem step_inv (w : TrackerWorld) (e : TrackerEvent) (w' : TrackerWorld)
    (hs : step w e = some w') :
    (e = .triggerDrop ∧ w.handle_dropped = false ∧
      w' = { w with handle_dropped := true, cancel_triggered := true,
                    handle_receiver_alive := false })
    ∨ (e = .subscribe ∧
      w' = { w with subscriber_receivers := w.subscriber_receivers + 1 })
    ∨ (e = .dropSubscriber ∧ 0 < w.subscriber_receivers ∧
      w' = { w with subscriber_receivers := w.subscriber_receivers - 1 })
    ∨ (e = .observeCancel ∧ (∃ c, w.phase = .selectP c) ∧
      w.cancel_triggered = true ∧ w' = { w with phase := .stopped })
    ∨ (∃ info, e = .chainHeadResult (.ok info) ∧ w.phase = .selectP false ∧
      w.last_block_id = none ∧
      w' = { w with last_block_id := some info.last,
                    phase := .selectP w.cancel_triggered })
    ∨ (∃ er, e = .chainHeadResult (.error er) ∧ w.phase = .selectP false ∧
      w.last_block_id = none ∧
      w' = { w with phase := .selectP w.cancel_triggered })
    ∨ (∃ h, e = .discoveryResult (.ok h) ∧ w.phase = .selectP false ∧
      w.last_block_id.isSome = true ∧ receiverCount w = 0 ∧
      w' = { w with current_seqno := some h.id.seqno, phase := .panicked })
    ∨ (∃ h, e = .discoveryResult (.ok h) ∧ w.phase = .selectP false ∧
      w.last_block_id.isSome = true ∧ receiverCount w ≠ 0 ∧
      w' = { w with current_seqno := some h.id.seqno,
                    chan_value := some h,
                    chan_version := w.chan_version + 1,
                    phase := .sleepP 30 })
    ∨ (∃ er, e = .discoveryResult (.error er) ∧ w.phase = .selectP false ∧
      w.last_block_id.isSome = true ∧
      w' = { w with phase := .selectP w.cancel_triggered })
    ∨ (∃ n, e = .wakeFromSleep ∧ w.phase = .sleepP n ∧
      w' = { w with phase := .selectP w.cancel_triggered }) := by
  obtain ⟨ph, lb, cs, cv, ver, ct, hd, hra, sr⟩ := w
  cases e with
  | triggerDrop =>
    cases hd with
    | true => exact Option.noConfusion hs
    | false => exact Or.inl ⟨rfl, rfl, (Option.some.inj hs).symm⟩
  | subscribe =>
    cases hra with
    | true => exact Or.inr (Or.inl ⟨rfl, (Option.some.inj hs).symm⟩)
    | false =>
      cases sr with
      | zero => exact Option.noConfusion hs
      | succ n => exact Or.inr (Or.inl ⟨rfl, (Option.some.inj hs).symm⟩)
  | dropSubscriber =>
    cases sr with
    | zero => exact Option.noConfusion hs
    | succ n =>
      exact Or.inr (Or.inr (Or.inl ⟨rfl, Nat.succ_pos n, (Option.some.inj hs).symm⟩))
  | observeCancel =>
    cases ph with
    | selectP seen =>
      cases ct with
      | true =>
        exact Or.inr (Or.inr (Or.inr (Or.inl
          ⟨rfl, ⟨seen, rfl⟩, rfl, (Option.some.inj hs).symm⟩)))
      | false => exact Option.noConfusion hs
    | sleepP n => cases ct <;> exact Option.noConfusion hs
    | stopped => cases ct <;> exact Option.noConfusion hs
    | panicked => cases ct <;> exact Option.noConfusion hs
  | chainHeadResult r =>
    cases ph with
    | selectP seen =>
      cases seen with
      | false =>
        cases lb with
        | none =>
          cases r with
          | ok info =>
            exact Or.inr (Or.inr (Or.inr (Or.inr (Or.inl
              ⟨info, rfl, rfl, rfl, (Option.some.inj hs).symm⟩))))
          | error er =>
            exact Or.inr (Or.inr (Or.inr (Or.inr (Or.inr (Or.inl
              ⟨er, rfl, rfl, rfl, (Option.some.inj hs).symm⟩)))))
        | some b => cases r <;> exact Option.noConfusion hs
      | true => cases lb <;> cases r <;> exact Option.noConfusion hs
    | sleepP n => cases lb <;> cases r <;> exact Option.noConfusion hs
    | stopped => cases lb <;> cases r <;> exact Option.noConfusion hs
    | panicked => cases lb <;> cases r <;> exact Option.noConfusion hs
  | discoveryResult r =>
    cases ph with
    | selectP seen =>
      cases seen with
      | false =>
        cases lb with
        | none => cases r <;> exact Option.noConfusion hs
        | some b =>
          cases r with
          | ok h =>
            cases hra with
            | true =>
              exact Or.inr (Or.inr (Or.inr (Or.inr (Or.inr (Or.inr (Or.inr (Or.inl
                ⟨h, rfl, rfl, rfl, by simp [receiverCount],
                 (Option.some.inj hs).symm⟩)))))))
            | false =>
              cases sr with
              | zero =>
                exact Or.inr (Or.inr (Or.inr (Or.inr (Or.inr (Or.inr (Or.inl
                  ⟨h, rfl, rfl, rfl, rfl, (Option.some.inj hs).symm⟩))))))
              | succ n =>
                exact Or.inr (Or.inr (Or.inr (Or.inr (Or.inr (Or.inr (Or.inr (Or.inl
                  ⟨h, rfl, rfl, rfl, by simp [receiverCount],
                   (Option.some.inj hs).symm⟩)))))))
          | error er =>
            exact Or.inr (Or.inr (Or.inr (Or.inr (Or.inr (Or.inr (Or.inr (Or.inr (Or.inl
              ⟨er, rfl, rfl, rfl, (Option.some.inj hs).symm⟩))))))))
      | true => cases lb <;> cases r <;> exact Option.noConfusion hs
    | sleepP n => cases lb <;> cases r <;> exact Option.noConfusion hs
    | stopped => cases lb <;> cases r <;> exact Option.noConfusion hs
    | panicked => cases lb <;> cases r <;> exact Option.noConfusion hs
  | wakeFromSleep =>
    cases ph with
    | selectP seen => exact Option.noConfusion hs
    | sleepP n =>
      exact Or.inr (Or.inr (Or.inr (Or.inr (Or.inr (Or.inr (Or.inr (Or.inr (Or.inr
        ⟨n, rfl, rfl, (Option.some.inj hs).symm⟩))))))))
    | stopped => exact Option.noConfusion hs
    | panicked => exact Option.noConfusion hs

theorem stepTrace_cons_inv {w w' : TrackerWorld} {e : TrackerEvent}
    {es : List TrackerEvent} (h : stepTrace w (e :: es) = some w') :
    ∃ w1, step w e = some w1 ∧ stepTrace w1 es = some w' := by
  cases hs : step w e with
  | none => simp [stepTrace, hs] at h
  | some w1 => exact ⟨w1, rfl, by simpa [stepTrace, hs] using h⟩

theorem stepTrace_invariant (P : TrackerWorld → Prop)
    (hstep : ∀ w e w', step w e = some w' → P w → P w') :
    ∀ es (w w' : TrackerWorld), stepTrace w es = some w' → P w → P w' := by
  intro es
  induction es with
  | nil =>
    intro w w' h hp
    cases h
    exact hp
  | cons e es ih =>
    intro w w' h hp
    obtain ⟨w1, hs, ht⟩ := stepTrace_cons_inv h
    exact ih w1 w' ht (hstep w e w1 hs hp)

/-- Witness state: the actor at its select with the first chain head stored. -/
def wHead : TrackerWorld := { initialWorld with last_block_id := some (bidG 100) }

/-- Witness state: `wHead` after the cancellation token was triggered while
the discovery arm was in flight. -/
def wCancel : TrackerWorld := { wHead with cancel_triggered := true }

/-- Witness state: `wHead` after publishing the header at seqno 5, inside
the 30-second cooldown. -/
def wPub : TrackerWorld :=
  { wHead with current_seqno := some 5, chan_value := some (hdrG 5),
               chan_version := 1, phase := .sleepP 30 }

/-- Witness state: back at the select after the cooldown. -/
def wPubSel : TrackerWorld := { wPub with phase := .selectP false }

/-- Witness state: after a second publish, at seqno 7. -/
def wPub2 : TrackerWorld :=
  { wPubSel with current_seqno := some 7, chan_value := some (hdrG 7),
                 chan_version := 2, phase := .sleepP 30 }

/-- C2 (corrected): the anchor passed to `find_first_block_header` is the
first chain head the actor ever received, and it is never re-read: once
`last_block_id` is `Some`, no transition changes it, the chain-head arm is
permanently disabled by its `is_none` guard, and every later round is
anchored at that stored head. -/
theorem anchor_fixed_after_first_head :
    (∀ w e w' b, step w e = some w' → w.last_block_id = some b →
      w'.last_block_id = some b) ∧
    (∀ w r b, w.last_block_id = some b →
      step w (TrackerEvent.chainHeadResult r) = none) ∧
    (∀ w b, w.last_block_id = some b →
      discoveryArgs w = some (b, w.current_seqno,
        w.current_seqno.map (fun q => q + 32))) := by
  refine ⟨?_, ?_, ?_⟩
  · intro w e w' b hs hb
    rcases step_inv w e w' hs with
      ⟨he, hg, hw⟩ | ⟨he, hw⟩ | ⟨he, hg, hw⟩ | ⟨he, hg1, hg2, hw⟩ |
      ⟨info, he, hg1, hg2, hw⟩ | ⟨er, he, hg1, hg2, hw⟩ |
      ⟨h, he, hg1, hg2, hg3, hw⟩ | ⟨h, he, hg1, hg2, hg3, hw⟩ |
      ⟨er, he, hg1, hg2, hw⟩ | ⟨n, he, hg, hw⟩ <;> subst hw <;> simp_all
  · intro w r b hb
    cases hstep : step w (TrackerEvent.chainHeadResult r) with
    | none => rfl
    | some w' =>
      rcases step_inv w _ w' hstep with
        ⟨he, hg, hw⟩ | ⟨he, hw⟩ | ⟨he, hg, hw⟩ | ⟨he, hg1, hg2, hw⟩ |
        ⟨info, he, hg1, hg2, hw⟩ | ⟨er, he, hg1, hg2, hw⟩ |
        ⟨h, he, hg1, hg2, hg3, hw⟩ | ⟨h, he, hg1, hg2, hg3, hw⟩ |
        ⟨er, he, hg1, hg2, hw⟩ | ⟨n, he, hg, hw⟩ <;> simp_all
  · intro w b hb
    simp [discoveryArgs, hb]

/-- Witness for `anchor_fixed_after_first_head` at a concrete state: with
the head of seqno 100 stored, a fresh head (seqno 200) cannot be read, and
the next round is anchored at the stored head with no hint. -/
theorem anchor_fixed_after_first_head_witness :
    step wHead (TrackerEvent.chainHeadResult (Except.ok (infoG 200))) = none ∧
    discoveryArgs wHead = some (bidG 100, none, none) :=
  ⟨anchor_fixed_after_first_head.2.1 wHead (Except.ok (infoG 200)) (bidG 100) rfl,
   anchor_fixed_after_first_head.2.2 wHead (bidG 100) rfl⟩

/-- C3 (corrected): the cancellation branch is raced only at the `select!`
(chain-head wait and remote lookup); the 30-second cooldown sleep is not a
cancellation point; a `select!` entered after the token was triggered can
only resolve its cancellation branch; and after the cancellation branch has
run, the actor performs no further work. -/
theorem cancellation_checked_at_select_only :
    (∀ w c, w.phase = ActorPhase.selectP c → w.cancel_triggered = true →
      step w TrackerEvent.observeCancel =
        some { w with phase := ActorPhase.stopped }) ∧
    (∀ w n, w.phase = ActorPhase.sleepP n →
      step w TrackerEvent.observeCancel = none) ∧
    (∀ w r, w.phase = ActorPhase.selectP true →
      step w (TrackerEvent.chainHeadResult r) = none) ∧
    (∀ w r, w.phase = ActorPhase.selectP true →
      step w (TrackerEvent.discoveryResult r) = none) ∧
    (∀ w e w', w.phase = ActorPhase.stopped → step w e = some w' →
      w'.phase = ActorPhase.stopped ∧ w'.chan_value = w.chan_value ∧
      w'.chan_version = w.chan_version ∧
      w'.last_block_id = w.last_block_id ∧
      w'.current_seqno = w.current_seqno) := by
  refine ⟨?_, ?_, ?_, ?_, ?_⟩
  · intro w c hph hct
    obtain ⟨ph, lb, cs, cv, ver, ct, hd, hra, sr⟩ := w
    simp only at hph hct
    subst hph
    subst hct
    rfl
  · intro w n hph
    obtain ⟨ph, lb, cs, cv, ver, ct, hd, hra, sr⟩ := w
    simp only at hph
    subst hph
    cases ct <;> rfl
  · intro w r hph
    obtain ⟨ph, lb, cs, cv, ver, ct, hd, hra, sr⟩ := w
    simp only at hph
    subst hph
    cases lb <;> cases r <;> rfl
  · intro w r hph
    obtain ⟨ph, lb, cs, cv, ver, ct, hd, hra, sr⟩ := w
    simp only at hph
    subst hph
    cases lb <;> cases r <;> rfl
  · intro w e w' hph hs
    rcases step_inv w e w' hs with
      ⟨he, hg, hw⟩ | ⟨he, hw⟩ | ⟨he, hg, hw⟩ | ⟨he, hg1, hg2, hw⟩ |
      ⟨info, he, hg1, hg2, hw⟩ | ⟨er, he, hg1, hg2, hw⟩ |
      ⟨h, he, hg1, hg2, hg3, hw⟩ | ⟨h, he, hg1, hg2, hg3, hw⟩ |
      ⟨er, he, hg1, hg2, hw⟩ | ⟨n, he, hg, hw⟩ <;> subst hw <;> simp_all

/-- Witness for `cancellation_checked_at_select_only` at a concrete state:
with the token triggered at the select, observing cancellation stops the
actor. -/
theorem cancellation_checked_at_select_only_witness :
    step wCancel TrackerEvent.observeCancel =
      some { wCancel with phase := ActorPhase.stopped } :=
  cancellation_checked_at_select_only.1 wCancel false rfl rfl

/-- C5 (corrected): chain-head errors and discovery errors are never fatal
(the actor keeps its state and re-enters the select), reaching `stopped`
happens only by observing the triggered cancellation token, and a panic
happens only when a successful round's publish finds zero live receivers. -/
theorem round_failures_nonfatal :
    (∀ w er w', step w (TrackerEvent.chainHeadResult (Except.error er)) = some w' →
      w'.phase = ActorPhase.selectP w.cancel_triggered ∧
      w'.last_block_id = w.last_block_id ∧ w'.chan_value = w.chan_value ∧
      w'.current_seqno = w.current_seqno) ∧
    (∀ w er w', step w (TrackerEvent.discoveryResult (Except.error er)) = some w' →
      w'.phase = ActorPhase.selectP w.cancel_triggered ∧
      w'.last_block_id = w.last_block_id ∧ w'.chan_value = w.chan_value ∧
      w'.current_seqno = w.current_seqno) ∧
    (∀ w e w', step w e = some w' → w'.phase = ActorPhase.stopped →
      w.phase ≠ ActorPhase.stopped →
      e = TrackerEvent.observeCancel ∧ w.cancel_triggered = true) ∧
    (∀ w e w', step w e = some w' → w'.phase = ActorPhase.panicked →
      w.phase ≠ ActorPhase.panicked → receiverCount w = 0) := by
  refine ⟨?_, ?_, ?_, ?_⟩
  · intro w er w' hs
    rcases step_inv w _ w' hs with
      ⟨he, hg, hw⟩ | ⟨he, hw⟩ | ⟨he, hg, hw⟩ | ⟨he, hg1, hg2, hw⟩ |
      ⟨info, he, hg1, hg2, hw⟩ | ⟨er2, he, hg1, hg2, hw⟩ |
      ⟨h, he, hg1, hg2, hg3, hw⟩ | ⟨h, he, hg1, hg2, hg3, hw⟩ |
      ⟨er2, he, hg1, hg2, hw⟩ | ⟨n, he, hg, hw⟩ <;> subst hw <;> simp_all
  · intro w er w' hs
    rcases step_inv w _ w' hs with
      ⟨he, hg, hw⟩ | ⟨he, hw⟩ | ⟨he, hg, hw⟩ | ⟨he, hg1, hg2, hw⟩ |
      ⟨info, he, hg1, hg2, hw⟩ | ⟨er2, he, hg1, hg2, hw⟩ |
      ⟨h, he, hg1, hg2, hg3, hw⟩ | ⟨h, he, hg1, hg2, hg3, hw⟩ |
      ⟨er2, he, hg1, hg2, hw⟩ | ⟨n, he, hg, hw⟩ <;> subst hw <;> simp_all
  · intro w e w' hs hph hne
    rcases step_inv w e w' hs with
      ⟨he, hg, hw⟩ | ⟨he, hw⟩ | ⟨he, hg, hw⟩ | ⟨he, hg1, hg2, hw⟩ |
      ⟨info, he, hg1, hg2, hw⟩ | ⟨er, he, hg1, hg2, hw⟩ |
      ⟨h, he, hg1, hg2, hg3, hw⟩ | ⟨h, he, hg1, hg2, hg3, hw⟩ |
      ⟨er, he, hg1, hg2, hw⟩ | ⟨n, he, hg, hw⟩ <;> subst hw <;> simp_all
  · intro w e w' hs hph hne
    rcases step_inv w e w' hs with
      ⟨he, hg, hw⟩ | ⟨he, hw⟩ | ⟨he, hg, hw⟩ | ⟨he, hg1, hg2, hw⟩ |
      ⟨info, he, hg1, hg2, hw⟩ | ⟨er, he, hg1, hg2, hw⟩ |
      ⟨h, he, hg1, hg2, hg3, hw⟩ | ⟨h, he, hg1, hg2, hg3, hw⟩ |
      ⟨er, he, hg1, hg2, hw⟩ | ⟨n, he, hg, hw⟩ <;> subst hw <;> simp_all

/-- Witness for `round_failures_nonfatal` at a concrete state: a chain-head
error at the initial state keeps the actor running unchanged. -/
theorem round_failures_nonfatal_witness :
    initialWorld.phase = ActorPhase.selectP initialWorld.cancel_triggered ∧
    initialWorld.last_block_id = initialWorld.last_block_id ∧
    initialWorld.chan_value = initialWorld.chan_value ∧
    initialWorld.current_seqno = initialWorld.current_seqno :=
  round_failures_nonfatal.1 initialWorld (LSError.mk 0) initialWorld (by decide)

/-- C7 (corrected, amended part): a successful discovery whose publish
finds at least one live receiver publishes the header and enters the fixed
30-second cooldown, which must complete (only `wakeFromSleep` leaves it)
before the loop re-enters the select; a successful discovery whose publish
finds no live receiver panics at the `send(..).unwrap()` and neither
publishes nor enters the cooldown; a failed discovery leaves all data
unchanged and is immediately back at the select, with no cooldown. -/
theorem cooldown_after_success_retry_after_failure :
    (∀ w h w', step w (TrackerEvent.discoveryResult (Except.ok h)) = some w' →
      receiverCount w ≠ 0 →
      w'.phase = ActorPhase.sleepP 30 ∧ w'.chan_value = some h ∧
      w'.current_seqno = some h.id.seqno) ∧
    (∀ w n e w', w.phase = ActorPhase.sleepP n → step w e = some w' →
      w'.phase = ActorPhase.sleepP n ∨
      (e = TrackerEvent.wakeFromSleep ∧
       w'.phase = ActorPhase.selectP w.cancel_triggered)) ∧
    (∀ w er w', step w (TrackerEvent.discoveryResult (Except.error er)) = some w' →
      w'.phase = ActorPhase.selectP w.cancel_triggered ∧
      w'.chan_value = w.chan_value ∧ w'.last_block_id = w.last_block_id ∧
      w'.current_seqno = w.current_seqno) ∧
    (∀ w h w', step w (TrackerEvent.discoveryResult (Except.ok h)) = some w' →
      receiverCount w = 0 →
      w'.phase = ActorPhase.panicked ∧ w'.chan_value = w.chan_value ∧
      w'.chan_version = w.chan_version) := by
  refine ⟨?_, ?_, ?_, ?_⟩
  · intro w h w' hs hrc
    rcases step_inv w _ w' hs with
      ⟨he, hg, hw⟩ | ⟨he, hw⟩ | ⟨he, hg, hw⟩ | ⟨he, hg1, hg2, hw⟩ |
      ⟨info, he, hg1, hg2, hw⟩ | ⟨er, he, hg1, hg2, hw⟩ |
      ⟨h2, he, hg1, hg2, hg3, hw⟩ | ⟨h2, he, hg1, hg2, hg3, hw⟩ |
      ⟨er, he, hg1, hg2, hw⟩ | ⟨n, he, hg, hw⟩ <;> subst hw <;> simp_all
  · intro w n e w' hph hs
    rcases step_inv w e w' hs with
      ⟨he, hg, hw⟩ | ⟨he, hw⟩ | ⟨he, hg, hw⟩ | ⟨he, hg1, hg2, hw⟩ |
      ⟨info, he, hg1, hg2, hw⟩ | ⟨er, he, hg1, hg2, hw⟩ |
      ⟨h, he, hg1, hg2, hg3, hw⟩ | ⟨h, he, hg1, hg2, hg3, hw⟩ |
      ⟨er, he, hg1, hg2, hw⟩ | ⟨m, he, hg, hw⟩ <;> subst hw <;> simp_all
  · intro w er w' hs
    rcases step_inv w _ w' hs with
      ⟨he, hg, hw⟩ | ⟨he, hw⟩ | ⟨he, hg, hw⟩ | ⟨he, hg1, hg2, hw⟩ |
      ⟨info, he, hg1, hg2, hw⟩ | ⟨er2, he, hg1, hg2, hw⟩ |
      ⟨h, he, hg1, hg2, hg3, hw⟩ | ⟨h, he, hg1, hg2, hg3, hw⟩ |
      ⟨er2, he, hg1, hg2, hw⟩ | ⟨n, he, hg, hw⟩ <;> subst hw <;> simp_all
  · intro w h w' hs hrc
    rcases step_inv w _ w' hs with
      ⟨he, hg, hw⟩ | ⟨he, hw⟩ | ⟨he, hg, hw⟩ | ⟨he, hg1, hg2, hw⟩ |
      ⟨info, he, hg1, hg2, hw⟩ | ⟨er, he, hg1, hg2, hw⟩ |
      ⟨h2, he, hg1, hg2, hg3, hw⟩ | ⟨h2, he, hg1, hg2, hg3, hw⟩ |
      ⟨er, he, hg1, hg2, hw⟩ | ⟨n, he, hg, hw⟩ <;> subst hw <;> simp_all

/-- Witness for `cooldown_after_success_retry_after_failure` at a concrete
state: a successful round at `wHead` publishes the seqno-5 header and
enters the 30-second sleep. -/
theorem cooldown_after_success_retry_after_failure_witness :
    wPub.phase = ActorPhase.sleepP 30 ∧ wPub.chan_value = some (hdrG 5) ∧
    wPub.current_seqno = some (hdrG 5).id.seqno :=
  cooldown_after_success_retry_after_failure.1 wHead (hdrG 5) wPub
    (by decide) (by decide)

/-- C8 (confirmed): the chain-head wait and the discovery round are
mutually exclusive: their guards (`last_block_id.is_none()` vs
`last_block_id.is_some()`) are complementary, no state enables both arms,
and at a live select exactly the arm whose guard holds is enabled. -/
theorem chain_head_wait_and_discovery_exclusive :
    (∀ w, chainHeadGuard w = true ↔ discoveryGuard w = false) ∧
    (∀ w r r' w1 w2, step w (TrackerEvent.chainHeadResult r) = some w1 →
      step w (TrackerEvent.discoveryResult r') = some w2 → False) ∧
    (∀ w r, w.phase = ActorPhase.selectP false →
      (step w (TrackerEvent.chainHeadResult r)).isSome = chainHeadGuard w) ∧
    (∀ w r, w.phase = ActorPhase.selectP false →
      (step w (TrackerEvent.discoveryResult r)).isSome = discoveryGuard w) := by
  refine ⟨?_, ?_, ?_, ?_⟩
  · intro w
    cases hb : w.last_block_id <;> simp [chainHeadGuard, discoveryGuard, hb]
  · intro w r r' w1 w2 h1 h2
    rcases step_inv w _ w1 h1 with
      ⟨he, hg, hw⟩ | ⟨he, hw⟩ | ⟨he, hg, hw⟩ | ⟨he, hg1, hg2, hw⟩ |
      ⟨info, he, hg1, hg2, hw⟩ | ⟨er, he, hg1, hg2, hw⟩ |
      ⟨h, he, hg1, hg2, hg3, hw⟩ | ⟨h, he, hg1, hg2, hg3, hw⟩ |
      ⟨er, he, hg1, hg2, hw⟩ | ⟨n, he, hg, hw⟩ <;> try exact Option.noConfusion (he ▸ rfl)
    all_goals
      rcases step_inv w _ w2 h2 with
        ⟨he2, hg2', hw2⟩ | ⟨he2, hw2⟩ | ⟨he2, hg2', hw2⟩ | ⟨he2, hg21, hg22, hw2⟩ |
        ⟨info2, he2, hg21, hg22, hw2⟩ | ⟨er2, he2, hg21, hg22, hw2⟩ |
        ⟨h2', he2, hg21, hg22, hg23, hw2⟩ | ⟨h2', he2, hg21, hg22, hg23, hw2⟩ |
        ⟨er2, he2, hg21, hg22, hw2⟩ | ⟨n2, he2, hg2', hw2⟩ <;> simp_all
  · intro w r hph
    obtain ⟨ph, lb, cs, cv, ver, ct, hd, hra, sr⟩ := w
    simp only at hph
    subst hph
    cases lb <;> cases r <;> rfl
  · intro w r hph
    obtain ⟨ph, lb, cs, cv, ver, ct, hd, hra, sr⟩ := w
    simp only at hph
    subst hph
    cases lb with
    | none => cases r <;> rfl
    | some b =>
      cases r with
      | ok h =>
        show (if receiverCount _ = 0 then _ else _ : Option TrackerWorld).isSome = _
        split <;> rfl
      | error er => rfl

/-- Witness for `chain_head_wait_and_discovery_exclusive` at concrete
states: at the initial state only the chain-head arm is enabled, and at
`wHead` only the discovery arm is enabled. -/
theorem chain_head_wait_and_discovery_exclusive_witness :
    (step initialWorld (TrackerEvent.chainHeadResult
      (Except.ok (infoG 100)))).isSome = chainHeadGuard initialWorld ∧
    (step wHead (TrackerEvent.discoveryResult
      (Except.ok (hdrG 5)))).isSome = discoveryGuard wHead :=
  ⟨chain_head_wait_and_discovery_exclusive.2.2.1 initialWorld
     (Except.ok (infoG 100)) rfl,
   chain_head_wait_and_discovery_exclusive.2.2.2 wHead
     (Except.ok (hdrG 5)) rfl⟩

/-- C10 (confirmed): the published channel starts at `None`; every
transition either leaves the published value unchanged or overwrites it
with `Some` of a successful round's header; hence once the value is
present it never reverts to absent. -/
theorem published_never_reverts_to_none :
    initialWorld.chan_value = none ∧
    (∀ w e w', step w e = some w' →
      w'.chan_value = w.chan_value ∨
      (∃ h, e = TrackerEvent.discoveryResult (Except.ok h) ∧
        w'.chan_value = some h)) ∧
    (∀ w e w' h, step w e = some w' → w.chan_value = some h →
      (w'.chan_value).isSome = true) := by
  refine ⟨rfl, ?_, ?_⟩
  · intro w e w' hs
    rcases step_inv w e w' hs with
      ⟨he, hg, hw⟩ | ⟨he, hw⟩ | ⟨he, hg, hw⟩ | ⟨he, hg1, hg2, hw⟩ |
      ⟨info, he, hg1, hg2, hw⟩ | ⟨er, he, hg1, hg2, hw⟩ |
      ⟨h, he, hg1, hg2, hg3, hw⟩ | ⟨h, he, hg1, hg2, hg3, hw⟩ |
      ⟨er, he, hg1, hg2, hw⟩ | ⟨n, he, hg, hw⟩ <;> subst hw
    · exact Or.inl rfl
    · exact Or.inl rfl
    · exact Or.inl rfl
    · exact Or.inl rfl
    · exact Or.inl rfl
    · exact Or.inl rfl
    · exact Or.inl rfl
    · exact Or.inr ⟨h, he, rfl⟩
    · exact Or.inl rfl
    · exact Or.inl rfl
  · intro w e w' h hs hc
    rcases step_inv w e w' hs with
      ⟨he, hg, hw⟩ | ⟨he, hw⟩ | ⟨he, hg, hw⟩ | ⟨he, hg1, hg2, hw⟩ |
      ⟨info, he, hg1, hg2, hw⟩ | ⟨er, he, hg1, hg2, hw⟩ |
      ⟨h2, he, hg1, hg2, hg3, hw⟩ | ⟨h2, he, hg1, hg2, hg3, hw⟩ |
      ⟨er, he, hg1, hg2, hw⟩ | ⟨n, he, hg, hw⟩ <;> subst hw <;> simp_all

/-- Witness for `published_never_reverts_to_none` at a concrete state:
after the cooldown ends the seqno-5 header is still present. -/
theorem published_never_reverts_to_none_witness :
    (wPubSel.chan_value).isSome = true :=
  published_never_reverts_to_none.2.2 wPub TrackerEvent.wakeFromSleep wPubSel
    (hdrG 5) (by decide) (by decide)

/-- An event respects the current seqno when, if it is a successful
discovery result, its header's seqno is at least the actor's
`current_seqno` (the seqno of the last published header). This is the
well-behaved-finder assumption: under a monotonically pruning server the
hint window `[current_seqno, current_seqno + 32]` makes
`find_first_block_header` return a boundary no older than the last one. -/
def okEvent (cur : Option Nat) : TrackerEvent → Bool
  | .discoveryResult (.ok h) =>
    match cur with
    | none => true
    | some s => decide (s ≤ h.id.seqno)
  | _ => true

/-- All successful discovery results along a trace respect the
`current_seqno` of the state at which they fire. -/
def okResults : TrackerWorld → List TrackerEvent → Bool
  | _, [] => true
  | w, e :: es =>
    okEvent w.current_seqno e &&
      (match step w e with
       | some w' => okResults w' es
       | none => true)

/-- The published header's seqno never exceeds `current_seqno` (they are
equal except transiently in the panicked state). -/
def chanLeCurr (w : TrackerWorld) : Prop :=
  ∀ h, w.chan_value = some h → ∃ s, w.current_seqno = some s ∧ h.id.seqno ≤ s

theorem chanLeCurr_step {w : TrackerWorld} {e : TrackerEvent} {w1 : TrackerWorld}
    (hs : step w e = some w1) (hle : chanLeCurr w)
    (hok : okEvent w.current_seqno e = true) :
    chanLeCurr w1 ∧
    ∀ h, w.chan_value = some h →
      ∃ h1, w1.chan_value = some h1 ∧ h.id.seqno ≤ h1.id.seqno := by
  rcases step_inv w e w1 hs with
    ⟨he, hg, hw⟩ | ⟨he, hw⟩ | ⟨he, hg, hw⟩ | ⟨he, hg1, hg2, hw⟩ |
    ⟨info, he, hg1, hg2, hw⟩ | ⟨er, he, hg1, hg2, hw⟩ |
    ⟨hb, he, hg1, hg2, hg3, hw⟩ | ⟨hb, he, hg1, hg2, hg3, hw⟩ |
    ⟨er, he, hg1, hg2, hw⟩ | ⟨n, he, hg, hw⟩ <;> subst hw
  case _ =>
    exact ⟨fun h hh => hle h hh, fun h hh => ⟨h, hh, le_refl _⟩⟩
  case _ =>
    exact ⟨fun h hh => hle h hh, fun h hh => ⟨h, hh, le_refl _⟩⟩
  case _ =>
    exact ⟨fun h hh => hle h hh, fun h hh => ⟨h, hh, le_refl _⟩⟩
  case _ =>
    exact ⟨fun h hh => hle h hh, fun h hh => ⟨h, hh, le_refl _⟩⟩
  case _ =>
    exact ⟨fun h hh => hle h hh, fun h hh => ⟨h, hh, le_refl _⟩⟩
  case _ =>
    exact ⟨fun h hh => hle h hh, fun h hh => ⟨h, hh, le_refl _⟩⟩
  case _ =>
    subst he
    constructor
    · intro h hh
      obtain ⟨s, hcur, hhs⟩ := hle h hh
      refine ⟨hb.id.seqno, rfl, ?_⟩
      simp only [okEvent, hcur] at hok
      exact le_trans hhs (of_decide_eq_true hok)
    · intro h hh
      exact ⟨h, hh, le_refl _⟩
  case _ =>
    subst he
    constructor
    · intro h hh
      simp only [Option.some.injEq] at hh
      subst hh
      exact ⟨hb.id.seqno, rfl, le_refl _⟩
    · intro h hh
      obtain ⟨s, hcur, hhs⟩ := hle h hh
      refine ⟨hb, rfl, ?_⟩
      simp only [okEvent, hcur] at hok
      exact le_trans hhs (of_decide_eq_true hok)
  case _ =>
    exact ⟨fun h hh => hle h hh, fun h hh => ⟨h, hh, le_refl _⟩⟩
  case _ =>
    exact ⟨fun h hh => hle h hh, fun h hh => ⟨h, hh, le_refl _⟩⟩

theorem chanLeCurr_trace :
    ∀ (es : List TrackerEvent) (w w' : TrackerWorld),
      stepTrace w es = some w' → chanLeCurr w → okResults w es = true →
      chanLeCurr w' ∧
      ∀ h, w.chan_value = some h →
        ∃ h', w'.chan_value = some h' ∧ h.id.seqno ≤ h'.id.seqno := by
  intro es
  induction es with
  | nil =>
    intro w w' ht hle _
    cases ht
    exact ⟨hle, fun h hh => ⟨h, hh, le_refl _⟩⟩
  | cons e es ih =>
    intro w w' ht hle hok
    obtain ⟨w1, hs, ht1⟩ := stepTrace_cons_inv ht
    have hok2 : okEvent w.current_seqno e = true ∧ okResults w1 es = true := by
      simp only [okResults, hs, Bool.and_eq_true] at hok
      exact hok
    obtain ⟨hstep1, hbridge1⟩ := chanLeCurr_step hs hle hok2.1
    obtain ⟨hstep2, hbridge2⟩ := ih w1 w' ht1 hstep1 hok2.2
    refine ⟨hstep2, ?_⟩
    intro h hh
    obtain ⟨h1, hh1, hle1⟩ := hbridge1 h hh
    obtain ⟨h2, hh2, hle2⟩ := hbridge2 h1 hh1
    exact ⟨h2, hh2, le_trans hle1 hle2⟩

/-- C1 (corrected, amended part): published seqnos are non-decreasing as
long as every successful discovery result's seqno is at least the
`current_seqno` at the time it arrives — the actor itself performs no
discard, so this hypothesis on the finder results is exactly what
monotonicity rests on. -/
theorem published_seqno_monotone :
    ∀ (es : List TrackerEvent) (w : TrackerWorld) (es' : List TrackerEvent)
      (w' : TrackerWorld) (h h' : LiteServerBlockHeader),
      stepTrace initialWorld es = some w →
      okResults initialWorld es = true →
      stepTrace w es' = some w' → okResults w es' = true →
      w.chan_value = some h → w'.chan_value = some h' →
      h.id.seqno ≤ h'.id.seqno := by
  intro es w es' w' h h' ht hok ht' hok' hc hc'
  have h0 : chanLeCurr initialWorld := by
    intro h hh
    exact Option.noConfusion hh
  have h1 := chanLeCurr_trace es initialWorld w ht h0 hok
  have h2 := chanLeCurr_trace es' w w' ht' h1.1 hok'
  obtain ⟨h'', hh'', hle⟩ := h2.2 h hc
  rw [hc'] at hh''
  cases Option.some.inj hh''
  exact hle

/-- Witness for `published_seqno_monotone` on a concrete pair of rounds:
seqno 5 then seqno 7. -/
theorem published_seqno_monotone_witness :
    (hdrG 5).id.seqno ≤ (hdrG 7).id.seqno :=
  published_seqno_monotone
    [TrackerEvent.chainHeadResult (Except.ok (infoG 100)),
     TrackerEvent.discoveryResult (Except.ok (hdrG 5))]
    wPub
    [TrackerEvent.wakeFromSleep,
     TrackerEvent.discoveryResult (Except.ok (hdrG 7))]
    wPub2 (hdrG 5) (hdrG 7)
    (by decide) (by decide) (by decide) (by decide) (by decide) (by decide)

/-- Outside the panicked state, the published header's seqno and the
actor's `current_seqno` coincide: both are set together in the success
handler and nowhere else. -/
def chanMatchesCurr (w : TrackerWorld) : Prop :=
  w.phase ≠ ActorPhase.panicked →
    w.chan_value.map (fun h => h.id.seqno) = w.current_seqno

theorem chanMatchesCurr_step {w : TrackerWorld} {e : TrackerEvent}
    {w1 : TrackerWorld} (hs : step w e = some w1) (hp : chanMatchesCurr w) :
    chanMatchesCurr w1 := by
  rcases step_inv w e w1 hs with
    ⟨he, hg, hw⟩ | ⟨he, hw⟩ | ⟨he, hg, hw⟩ | ⟨he, hg1, hg2, hw⟩ |
    ⟨info, he, hg1, hg2, hw⟩ | ⟨er, he, hg1, hg2, hw⟩ |
    ⟨hb, he, hg1, hg2, hg3, hw⟩ | ⟨hb, he, hg1, hg2, hg3, hw⟩ |
    ⟨er, he, hg1, hg2, hw⟩ | ⟨n, he, hg, hw⟩ <;> subst hw
  all_goals intro hnp
  all_goals simp_all [chanMatchesCurr]
  rcases hg1 with hph | hph <;> simp_all

theorem chanMatchesCurr_reachable {es : List TrackerEvent} {w : TrackerWorld}
    (ht : stepTrace initialWorld es = some w) : chanMatchesCurr w := by
  refine stepTrace_invariant chanMatchesCurr ?_ es initialWorld w ht ?_
  · intro w e w' hs hp
    exact chanMatchesCurr_step hs hp
  · intro hnp
    rfl

/-- C4 (confirmed): in any reachable non-panicked state whose chain head is
known, the discovery call is made with no hint while nothing has been
published yet, and with the hint window
`[published_seqno, published_seqno + 32]` once a round has published. -/
theorem discovery_hint_window :
    ∀ (es : List TrackerEvent) (w : TrackerWorld) (b : TonNodeBlockIdExt),
      stepTrace initialWorld es = some w →
      w.phase ≠ ActorPhase.panicked → w.last_block_id = some b →
      (w.chan_value = none → discoveryArgs w = some (b, none, none)) ∧
      (∀ h, w.chan_value = some h →
        discoveryArgs w = some (b, some h.id.seqno, some (h.id.seqno + 32))) := by
  intro es w b ht hnp hb
  have hinv := chanMatchesCurr_reachable ht hnp
  constructor
  · intro hcn
    rw [hcn] at hinv
    simp only [Option.map_none'] at hinv
    simp [discoveryArgs, hb, ← hinv]
  · intro h hcs
    rw [hcs] at hinv
    simp only [Option.map_some'] at hinv
    simp [discoveryArgs, hb, ← hinv]

/-- Witness for `discovery_hint_window` at a concrete reachable state:
after publishing seqno 5 and waking from the cooldown, the next round uses
the hint window of low 5 and high 37. -/
theorem discovery_hint_window_witness :
    discoveryArgs wPubSel = some (bidG 100, some 5, some 37) :=
  (discovery_hint_window
    [TrackerEvent.chainHeadResult (Except.ok (infoG 100)),
     TrackerEvent.discoveryResult (Except.ok (hdrG 5)),
     TrackerEvent.wakeFromSleep]
    wPubSel (bidG 100) (by decide) (by decide) (by decide)).2 (hdrG 5) rfl

theorem chan_value_origin_step {w : TrackerWorld} {e : TrackerEvent}
    {w1 : TrackerWorld} {h : LiteServerBlockHeader}
    (hs : step w e = some w1) (hc : w1.chan_value = some h) :
    w.chan_value = some h ∨ e = TrackerEvent.discoveryResult (Except.ok h) := by
  rcases step_inv w e w1 hs with
    ⟨he, hg, hw⟩ | ⟨he, hw⟩ | ⟨he, hg, hw⟩ | ⟨he, hg1, hg2, hw⟩ |
    ⟨info, he, hg1, hg2, hw⟩ | ⟨er, he, hg1, hg2, hw⟩ |
    ⟨hb, he, hg1, hg2, hg3, hw⟩ | ⟨hb, he, hg1, hg2, hg3, hw⟩ |
    ⟨er, he, hg1, hg2, hw⟩ | ⟨n, he, hg, hw⟩ <;> subst hw <;> simp_all

theorem chan_value_origin :
    ∀ (es : List TrackerEvent) (w w' : TrackerWorld) (h : LiteServerBlockHeader),
      stepTrace w es = some w' → w'.chan_value = some h →
      w.chan_value = some h ∨
        TrackerEvent.discoveryResult (Except.ok h) ∈ es := by
  intro es
  induction es with
  | nil =>
    intro w w' h ht hc
    cases ht
    exact Or.inl hc
  | cons e es ih =>
    intro w w' h ht hc
    obtain ⟨w1, hs, ht1⟩ := stepTrace_cons_inv ht
    rcases ih w1 w' h ht1 hc with h1 | h1
    · rcases chan_value_origin_step hs h1 with h2 | h2
      · exact Or.inl h2
      · exact Or.inr (h2 ▸ List.mem_cons_self e es)
    · exact Or.inr (List.mem_cons_of_mem e h1)

/-- C6 (confirmed): any present value a subscriber can observe through the
watch channel is the `Ok` header of a completed discovery round — the
channel starts absent and only successful results are ever sent, never an
error. -/
theorem published_values_from_completed_rounds :
    ∀ (es : List TrackerEvent) (w : TrackerWorld) (h : LiteServerBlockHeader),
      stepTrace initialWorld es = some w → w.chan_value = some h →
      TrackerEvent.discoveryResult (Except.ok h) ∈ es := by
  intro es w h ht hc
  rcases chan_value_origin es initialWorld w h ht hc with h1 | h1
  · exact Option.noConfusion h1
  · exact h1

/-- Witness for `published_values_from_completed_rounds` on a concrete
trace: the seqno-5 header observed after two events is that trace's
successful discovery result. -/
theorem published_values_from_completed_rounds_witness :
    TrackerEvent.discoveryResult (Except.ok (hdrG 5)) ∈
      [TrackerEvent.chainHeadResult (Except.ok (infoG 100)),
       TrackerEvent.discoveryResult (Except.ok (hdrG 5))] :=
  published_values_from_completed_rounds
    [TrackerEvent.chainHeadResult (Except.ok (infoG 100)),
     TrackerEvent.discoveryResult (Except.ok (hdrG 5))]
    wPub (hdrG 5) (by decide) (by decide)

/-- Once the cancellation token is triggered, the number of publishes still
possible: one while the actor sits at a select entered before the trigger
(an in-flight round may still complete and win the race), zero anywhere
else. -/
def pubPotential (w : TrackerWorld) : Nat :=
  match w.phase with
  | .selectP false => 1
  | _ => 0

theorem pubPotential_le_one (w : TrackerWorld) : pubPotential w ≤ 1 := by
  cases hph : w.phase with
  | selectP seen => cases seen <;> simp [pubPotential, hph]
  | sleepP n => simp [pubPotential, hph]
  | stopped => simp [pubPotential, hph]
  | panicked => simp [pubPotential, hph]

theorem cancel_version_bound_step {w : TrackerWorld} {e : TrackerEvent}
    {w' : TrackerWorld} (hs : step w e = some w')
    (hct : w.cancel_triggered = true) :
    w'.cancel_triggered = true ∧
    w'.chan_version + pubPotential w' ≤ w.chan_version + pubPotential w := by
  rcases step_inv w e w' hs with
    ⟨he, hg, hw⟩ | ⟨he, hw⟩ | ⟨he, hg, hw⟩ | ⟨he, hg1, hg2, hw⟩ |
    ⟨info, he, hg1, hg2, hw⟩ | ⟨er, he, hg1, hg2, hw⟩ |
    ⟨hb, he, hg1, hg2, hg3, hw⟩ | ⟨hb, he, hg1, hg2, hg3, hw⟩ |
    ⟨er, he, hg1, hg2, hw⟩ | ⟨n, he, hg, hw⟩ <;> subst hw
  case _ => exact ⟨rfl, le_refl _⟩
  case _ => exact ⟨hct, le_refl _⟩
  case _ => exact ⟨hct, le_refl _⟩
  case _ =>
    obtain ⟨c, hph⟩ := hg1
    refine ⟨hct, ?_⟩
    simp only [pubPotential, hph]
    cases c <;> simp
  case _ =>
    refine ⟨hct, ?_⟩
    simp only [pubPotential, hg1, hct]
    omega
  case _ =>
    refine ⟨hct, ?_⟩
    simp only [pubPotential, hg1, hct]
    omega
  case _ =>
    refine ⟨hct, ?_⟩
    simp only [pubPotential, hg1]
    omega
  case _ =>
    refine ⟨hct, ?_⟩
    simp only [pubPotential, hg1]
    omega
  case _ =>
    refine ⟨hct, ?_⟩
    simp only [pubPotential, hg1, hct]
    omega
  case _ =>
    refine ⟨hct, ?_⟩
    simp only [pubPotential, hg, hct]
    omega

theorem cancel_version_bound_trace :
    ∀ (es : List TrackerEvent) (w w' : TrackerWorld),
      stepTrace w es = some w' → w.cancel_triggered = true →
      w'.cancel_triggered = true ∧
      w'.chan_version + pubPotential w' ≤ w.chan_version + pubPotential w := by
  intro es
  induction es with
  | nil =>
    intro w w' ht hct
    cases ht
    exact ⟨hct, le_refl _⟩
  | cons e es ih =>
    intro w w' ht hct
    obtain ⟨w1, hs, ht1⟩ := stepTrace_cons_inv ht
    obtain ⟨hct1, hle1⟩ := cancel_version_bound_step hs hct
    obtain ⟨hct2, hle2⟩ := ih w1 w' ht1 hct1
    exact ⟨hct2, le_trans hle2 hle1⟩

/-- C9 (corrected, amended part): dropping the handle is possible at most
once and is the only event that triggers the cancellation token; it leaves
the published value and existing subscriptions intact; after the drop at
most one further update can ever be published (the round in flight at drop
time); and once the actor has stopped, the published value and version
never change again. -/
theorem drop_semantics :
    (∀ w w', step w TrackerEvent.triggerDrop = some w' →
      w.handle_dropped = false ∧ w'.handle_dropped = true ∧
      w'.cancel_triggered = true ∧
      step w' TrackerEvent.triggerDrop = none ∧
      w'.chan_value = w.chan_value ∧
      w'.subscriber_receivers = w.subscriber_receivers) ∧
    (∀ w e w', step w e = some w' → w.cancel_triggered = false →
      w'.cancel_triggered = true → e = TrackerEvent.triggerDrop) ∧
    (∀ w w' es w'', step w TrackerEvent.triggerDrop = some w' →
      stepTrace w' es = some w'' →
      w''.chan_version ≤ w'.chan_version + 1) ∧
    (∀ w e w', w.phase = ActorPhase.stopped → step w e = some w' →
      w'.phase = ActorPhase.stopped ∧ w'.chan_value = w.chan_value ∧
      w'.chan_version = w.chan_version) := by
  refine ⟨?_, ?_, ?_, ?_⟩
  · intro w w' hs
    rcases step_inv w _ w' hs with
      ⟨he, hg, hw⟩ | ⟨he, hw⟩ | ⟨he, hg, hw⟩ | ⟨he, hg1, hg2, hw⟩ |
      ⟨info, he, hg1, hg2, hw⟩ | ⟨er, he, hg1, hg2, hw⟩ |
      ⟨h, he, hg1, hg2, hg3, hw⟩ | ⟨h, he, hg1, hg2, hg3, hw⟩ |
      ⟨er, he, hg1, hg2, hw⟩ | ⟨n, he, hg, hw⟩ <;> subst hw <;> simp_all [step]
  · intro w e w' hs hf ht
    rcases step_inv w e w' hs with
      ⟨he, hg, hw⟩ | ⟨he, hw⟩ | ⟨he, hg, hw⟩ | ⟨he, hg1, hg2, hw⟩ |
      ⟨info, he, hg1, hg2, hw⟩ | ⟨er, he, hg1, hg2, hw⟩ |
      ⟨h, he, hg1, hg2, hg3, hw⟩ | ⟨h, he, hg1, hg2, hg3, hw⟩ |
      ⟨er, he, hg1, hg2, hw⟩ | ⟨n, he, hg, hw⟩ <;> subst hw <;> simp_all
  · intro w w' es w'' hs ht
    have hct : w'.cancel_triggered = true := by
      rcases step_inv w _ w' hs with
        ⟨he, hg, hw⟩ | ⟨he, hw⟩ | ⟨he, hg, hw⟩ | ⟨he, hg1, hg2, hw⟩ |
        ⟨info, he, hg1, hg2, hw⟩ | ⟨er, he, hg1, hg2, hw⟩ |
        ⟨h, he, hg1, hg2, hg3, hw⟩ | ⟨h, he, hg1, hg2, hg3, hw⟩ |
        ⟨er, he, hg1, hg2, hw⟩ | ⟨n, he, hg, hw⟩ <;> subst hw <;> simp_all
    obtain ⟨_, hle⟩ := cancel_version_bound_trace es w' w'' ht hct
    have h1 := pubPotential_le_one w'
    omega
  · intro w e w' hph hs
    rcases step_inv w e w' hs with
      ⟨he, hg, hw⟩ | ⟨he, hw⟩ | ⟨he, hg, hw⟩ | ⟨he, hg1, hg2, hw⟩ |
      ⟨info, he, hg1, hg2, hw⟩ | ⟨er, he, hg1, hg2, hw⟩ |
      ⟨h, he, hg1, hg2, hg3, hw⟩ | ⟨h, he, hg1, hg2, hg3, hw⟩ |
      ⟨er, he, hg1, hg2, hw⟩ | ⟨n, he, hg, hw⟩ <;> subst hw <;> simp_all

/-- Witness for `drop_semantics` at a concrete state: dropping the handle
at `wHead` triggers the token once and keeps the published value. -/
theorem drop_semantics_witness :
    wHead.handle_dropped = false ∧
    ({ wHead with handle_dropped := true, cancel_triggered := true,
                  handle_receiver_alive := false } : TrackerWorld).handle_dropped = true ∧
    ({ wHead with handle_dropped := true, cancel_triggered := true,
                  handle_receiver_alive := false } : TrackerWorld).cancel_triggered = true ∧
    step { wHead with handle_dropped := true, cancel_triggered := true,
                      handle_receiver_alive := false } TrackerEvent.triggerDrop = none ∧
    ({ wHead with handle_dropped := true, cancel_triggered := true,
                  handle_receiver_alive := false } : TrackerWorld).chan_value = wHead.chan_value ∧
    ({ wHead with handle_dropped := true, cancel_triggered := true,
                  handle_receiver_alive := false } : TrackerWorld).subscriber_receivers =
      wHead.subscriber_receivers :=
  drop_semantics.1 wHead
    { wHead with handle_dropped := true, cancel_triggered := true,
                 handle_receiver_alive := false } (by decide)

/-- C1 (counterexample): the actor has no discard-on-decrease check. On the
concrete trace below, a first round publishes the header at seqno 5 and a
later round whose result has the smaller seqno 3 is *also* sent to
subscribers (the channel ends holding the seqno-3 header at version 2),
rather than being discarded: in the source the `Ok` handler
unconditionally runs `self.sender.send(Some(block)).unwrap()`. -/
theorem c1_decrease_published :
    (stepTrace initialWorld
      [TrackerEvent.chainHeadResult (Except.ok (infoG 100)),
       TrackerEvent.discoveryResult (Except.ok (hdrG 5)),
       TrackerEvent.wakeFromSleep,
       TrackerEvent.discoveryResult (Except.ok (hdrG 3))]).map
        (fun w => (w.chan_value, w.chan_version))
      = some (some (hdrG 3), 2) ∧
    (hdrG 3).id.seqno < (hdrG 5).id.seqno := by
  exact ⟨by decide, by decide⟩

/-- C2 (counterexample): after a successful round and its cooldown, the
chain head is not re-read before the next round: a fresh head (seqno 200)
cannot be accepted (the chain-head arm's guard `last_block_id.is_none()`
is false forever), and the next round is still anchored at the original
head of seqno 100. -/
theorem c2_head_never_reread :
    ((stepTrace initialWorld
      [TrackerEvent.chainHeadResult (Except.ok (infoG 100)),
       TrackerEvent.discoveryResult (Except.ok (hdrG 5)),
       TrackerEvent.wakeFromSleep]).bind
        (fun w => step w (TrackerEvent.chainHeadResult (Except.ok (infoG 200))))
      = none) ∧
    ((stepTrace initialWorld
      [TrackerEvent.chainHeadResult (Except.ok (infoG 100)),
       TrackerEvent.discoveryResult (Except.ok (hdrG 5)),
       TrackerEvent.wakeFromSleep]).map discoveryArgs
      = some (some (bidG 100, some 5, some 37))) := by
  exact ⟨by decide, by decide⟩

/-- C3 (counterexample): cancellation does not have priority over an
in-flight phase and the cooldown is not a cancellation point. On the
concrete trace below the token is triggered (by dropping the handle while
a subscriber exists) while the discovery arm is in flight; the round still
completes, publishes its result, and the actor enters the 30-second sleep
— further work after cancellation was triggered. -/
theorem c3_work_after_cancellation :
    (stepTrace initialWorld
      [TrackerEvent.chainHeadResult (Except.ok (infoG 100)),
       TrackerEvent.subscribe,
       TrackerEvent.triggerDrop,
       TrackerEvent.discoveryResult (Except.ok (hdrG 7))]).map
        (fun w => (w.cancel_triggered, w.phase, w.chan_value, w.chan_version))
      = some (true, ActorPhase.sleepP 30, some (hdrG 7), 1) := by
  decide

/-- C5 (counterexample): a publish failure is fatal. On the concrete trace
below the handle is dropped (no subscriber exists), the in-flight round
completes, and `send(..).unwrap()` panics: the task is terminated without
having observed the cancellation signal, and no further round is
attempted (every actor transition from the panicked state is disabled). -/
theorem c5_publish_failure_panics :
    ((stepTrace initialWorld
      [TrackerEvent.chainHeadResult (Except.ok (infoG 100)),
       TrackerEvent.triggerDrop,
       TrackerEvent.discoveryResult (Except.ok (hdrG 7))]).map
        (fun w => w.phase) = some ActorPhase.panicked) ∧
    ((stepTrace initialWorld
      [TrackerEvent.chainHeadResult (Except.ok (infoG 100)),
       TrackerEvent.triggerDrop,
       TrackerEvent.discoveryResult (Except.ok (hdrG 7))]).bind
        (fun w => step w TrackerEvent.observeCancel) = none) ∧
    ((stepTrace initialWorld
      [TrackerEvent.chainHeadResult (Except.ok (infoG 100)),
       TrackerEvent.triggerDrop,
       TrackerEvent.discoveryResult (Except.ok (hdrG 7))]).bind
        (fun w => step w (TrackerEvent.discoveryResult (Except.ok (hdrG 8))))
      = none) := by
  exact ⟨by decide, by decide, by decide⟩

/-- C9 (counterexample): a subscription created before the drop can still
receive a further update. On the concrete trace below a subscriber exists,
the handle is dropped (channel version still 0), and the in-flight round
then completes and publishes: the surviving subscriber observes version 1
with the new header after the drop. -/
theorem c9_update_after_drop :
    ((stepTrace initialWorld
      [TrackerEvent.chainHeadResult (Except.ok (infoG 100)),
       TrackerEvent.subscribe,
       TrackerEvent.triggerDrop]).map
        (fun w => (w.handle_dropped, w.subscriber_receivers, w.chan_version))
      = some (true, 1, 0)) ∧
    ((stepTrace initialWorld
      [TrackerEvent.chainHeadResult (Except.ok (infoG 100)),
       TrackerEvent.subscribe,
       TrackerEvent.triggerDrop,
       TrackerEvent.discoveryResult (Except.ok (hdrG 7))]).map
        (fun w => (w.subscriber_receivers, w.chan_version, w.chan_value))
      = some (1, 1, some (hdrG 7))) := by
  exact ⟨by decide, by decide⟩

/-- C7 (counterexample): a successful discovery round after which the actor
neither publishes nor waits the 30-second cooldown. On the concrete trace
below the handle has been dropped with no subscriber outstanding; the
in-flight round then completes successfully (seqno 9), and instead of
publishing and sleeping the actor panics at `send(..).unwrap()`: the
channel still holds nothing at version 0, and the cooldown state is never
entered (`wakeFromSleep` is disabled). -/
theorem c7_success_without_cooldown :
    ((stepTrace initialWorld
      [TrackerEvent.chainHeadResult (Except.ok (infoG 100)),
       TrackerEvent.triggerDrop,
       TrackerEvent.discoveryResult (Except.ok (hdrG 9))]).map
        (fun w => (w.phase, w.chan_value, w.chan_version))
      = some (ActorPhase.panicked, none, 0)) ∧
    ((stepTrace initialWorld
      [TrackerEvent.chainHeadResult (Except.ok (infoG 100)),
       TrackerEvent.triggerDrop,
       TrackerEvent.discoveryResult (Except.ok (hdrG 9))]).bind
        (fun w => step w TrackerEvent.wakeFromSleep) = none) := by
  exact ⟨by decide, by decide⟩
